import Mathlib

/-!
# Verification of the file classification-and-move engine

Shallow embedding of `src/app/file_organizer_agent.py` (classes `Config`,
`Stats`, `FileOrganizer`).  Pure helpers (`os.path.splitext`, `basename`,
`dirname`, `join`, `str.format` over the three placeholders, `str.zfill`)
are translated from their CPython `posixpath`/`str` semantics.  Filesystem
calls (`os.path.getsize`, `os.stat`, `os.path.exists`, `os.makedirs`,
`shutil.move`, and the MD5 fingerprint of `calculate_file_hash`) are an
oracle record `FS`; the fallible ones return `Except Err` so that a raised
exception is an explicit value.  Python float divisions by `1024` and
`1024*1024` (powers of two, hence exact in IEEE double for every realistic
size) are modelled as exact rational division.
-/

set_option autoImplicit false

namespace FileOrganizer

abbrev Err := String

abbrev Path := String

/-- Index of the last occurrence of `c` in `cs` (CPython `str.rfind`,
returning `-1` when absent; here `Option Nat`). -/
def lastIndexOf (cs : List Char) (c : Char) : Option Nat :=
  (List.range cs.length).foldl
    (fun acc i => if cs.get? i = some c then some i else acc) none

/-- CPython `str.rfind` proper: `-1` when the character is absent. -/
def rfind (cs : List Char) (c : Char) : Int :=
  match lastIndexOf cs c with
  | some i => (i : Int)
  | none => -1

/-- `posixpath.basename`: everything after the last slash. -/
def basename (p : Path) : String :=
  let cs := p.toList
  let i := rfind cs '/' + 1
  String.mk (cs.drop i.toNat)

/-- `posixpath.dirname`: everything up to the last slash, with trailing
slashes stripped unless the prefix is all slashes. -/
def dirname (p : Path) : String :=
  let cs := p.toList
  let i := rfind cs '/' + 1
  let head := cs.take i.toNat
  if head ≠ [] ∧ ¬ head.all (fun c => c = '/') then
    String.mk (head.reverse.dropWhile (fun c => c = '/')).reverse
  else
    String.mk head

/-- `posixpath.splitext`: split at the last dot of the final component,
unless every character between the component start and that dot is a dot
(so dotfiles such as `.bashrc` have no extension). -/
def splitext (p : Path) : String × String :=
  let cs := p.toList
  let sepIndex := rfind cs '/'
  let dotIndex := rfind cs '.'
  if dotIndex > sepIndex ∧
      ((List.range cs.length).any fun i =>
        sepIndex + 1 ≤ (i : Int) ∧ (i : Int) < dotIndex ∧ cs.get? i ≠ some '.') then
    (String.mk (cs.take dotIndex.toNat), String.mk (cs.drop dotIndex.toNat))
  else
    (p, "")

/-- `str.startswith`, as a list-prefix test. -/
def strStartsWith (s pre : String) : Bool :=
  pre.toList.isPrefixOf s.toList

/-- `str.endswith`, as a list-suffix test. -/
def strEndsWith (s suf : String) : Bool :=
  suf.toList.isSuffixOf s.toList

/-- `posixpath.join` for two components. -/
def pjoin (a b : Path) : Path :=
  if strStartsWith b "/" then b
  else if a = "" ∨ strEndsWith a "/" then a ++ b
  else a ++ "/" ++ b

/-- `os.path.expanduser`.  The configuration paths of this development are
tilde-free absolute paths (spec section 3), on which `expanduser` is the
identity; home-directory expansion is therefore not modelled. -/
def expanduser (p : Path) : Path := p

/-- `str.lower` (ASCII; the extensions of the rule table are ASCII). -/
def pylower (s : String) : String := String.mk (s.toList.map Char.toLower)

/-- `str(n).zfill(2)`, used for the date-mode month/day components. -/
def zfill2 (n : Nat) : String :=
  let s := toString n
  if s.length < 2 then "0" ++ s else s

/-- One step of CPython `str.format` restricted to the three placeholders
`{name}`, `{counter}` and `{ext}` that `handle_duplicate` uses; a single
left-to-right pass, each placeholder replaced by its value.  `fuel` is the
remaining pattern length, so the recursion is structural. -/
def pyFormatAux (name counter ext : String) : Nat → List Char → String
  | 0, _ => ""
  | _, [] => ""
  | fuel + 1, c :: rest =>
    if List.isPrefixOf (String.toList "{name}") (c :: rest) then
      name ++ pyFormatAux name counter ext fuel (rest.drop 5)
    else if List.isPrefixOf (String.toList "{counter}") (c :: rest) then
      counter ++ pyFormatAux name counter ext fuel (rest.drop 8)
    else if List.isPrefixOf (String.toList "{ext}") (c :: rest) then
      ext ++ pyFormatAux name counter ext fuel (rest.drop 4)
    else
      String.singleton c ++ pyFormatAux name counter ext fuel rest

/-- `pattern.format(name=..., counter=..., ext=...)`. -/
def pyFormat (pattern name counter ext : String) : String :=
  pyFormatAux name counter ext pattern.length pattern.toList

/-- The configuration values that `FileOrganizer` reads through
`Config.get` (source lines 141-249 and 251-298), after the per-access
defaulting of `config.get(...).get(..., default)` has been applied (that
defaulting itself is verified separately on the raw JSON dictionary).
The numeric size thresholds are rationals because Python compares them
against float KB/MB sizes. -/
structure Cfg where
  target_directory : String
  rules : List (String × List String)
  exclude_files : List String
  organize_by : String
  create_date_folders : Bool
  duplicate_handling : String
  max_file_size_mb : ℚ
  min_file_size_kb : ℚ
  rename_pattern : String

/-- The mutable counters of class `Stats` (source lines 94-114);
`start_time`/elapsed wall-clock time is not modelled. -/
structure Stats where
  files_processed : Nat := 0
  files_moved : Nat := 0
  files_skipped : Nat := 0
  errors : Nat := 0
  duplicates_found : Nat := 0
  cache_hits : Nat := 0
deriving DecidableEq, Repr

/-- Filesystem oracle.  `pexists` is `os.path.exists` (total);
`getsize`, `mtimeParts` (the `year/month/day` of
`datetime.fromtimestamp(os.stat(p).st_mtime)`, calendar conversion
abstracted), `fileHash` (`calculate_file_hash`: MD5 of the content, or of
the first 10 MiB for large files), `makedirs` and `move` may raise. -/
structure FS where
  getsize : Path → Except Err Nat
  mtimeParts : Path → Except Err (Nat × Nat × Nat)
  pexists : Path → Bool
  fileHash : Path → Except Err String
  makedirs : Path → Except Err Unit
  move : Path → Path → Except Err Unit

/-- `FileOrganizer.get_file_category` (source lines 124-130): first rule
category whose extension list contains the extension wins, otherwise
`"others"`.  The `lru_cache` memoisation does not change the value. -/
def get_file_category (cfg : Cfg) (file_ext : String) : String :=
  match cfg.rules.find? (fun ce => ce.2.contains file_ext) with
  | some ce => ce.1
  | none => "others"

/-- `FileOrganizer.get_destination_path` (source lines 141-196). -/
def get_destination_path (fs : FS) (cfg : Cfg) (file_path : Path) :
    Except Err (Option Path) :=
  if cfg.exclude_files.contains (basename file_path) then
    Except.ok none
  else
    let file_ext := pylower (splitext file_path).2
    if cfg.organize_by = "extension" then
      Except.ok (some (pjoin (expanduser cfg.target_directory)
        (get_file_category cfg file_ext)))
    else if cfg.organize_by = "date" then
      match fs.mtimeParts file_path with
      | Except.error e => Except.error e
      | Except.ok (y, m, d) =>
        if cfg.create_date_folders then
          Except.ok (some (pjoin (pjoin (pjoin (expanduser cfg.target_directory)
            (toString y)) (zfill2 m)) (zfill2 d)))
        else
          Except.ok (some (pjoin (pjoin (expanduser cfg.target_directory)
            (toString y)) (zfill2 m)))
    else if cfg.organize_by = "size" then
      match fs.getsize file_path with
      | Except.error e => Except.error e
      | Except.ok n =>
        let file_size : ℚ := (n : ℚ) / (1024 * 1024)
        let size_category :=
          if file_size < 1 then "small"
          else if file_size < 10 then "medium"
          else if file_size < 100 then "large"
          else "very_large"
        Except.ok (some (pjoin (expanduser cfg.target_directory) size_category))
    else
      Except.ok none

/-- The rename-probing loop of `handle_duplicate` (source lines 227-247):
starting at `counter`, try at most `fuel` candidate names (the source
checks `counter > 1000` after incrementing, so exactly 1000 counters
`1..1000` are tried) and return the first whose path does not exist. -/
def renameFrom (fs : FS) (pattern dir base ext : String) :
    Nat → Nat → Option Path
  | _, 0 => none
  | counter, fuel + 1 =>
    let new_name := pyFormat pattern base ("_" ++ toString counter) ext
    let new_path := pjoin dir new_name
    if fs.pexists new_path then
      renameFrom fs pattern dir base ext (counter + 1) fuel
    else
      some new_path

/-- `FileOrganizer.handle_duplicate` (source lines 198-249).  The stats
object is threaded because the identical-fingerprint branch mutates
`duplicates_found` in place.  `Option Path` models the `Optional[str]`
result (`None` = skip). -/
def handle_duplicate (fs : FS) (cfg : Cfg) (source_path target_path : Path)
    (s : Stats) : Except Err (Option Path) × Stats :=
  if ¬ fs.pexists target_path then
    (Except.ok (some target_path), s)
  else
    match fs.fileHash source_path with
    | Except.error e => (Except.error e, s)
    | Except.ok source_hash =>
      match fs.fileHash target_path with
      | Except.error e => (Except.error e, s)
      | Except.ok target_hash =>
        let s1 :=
          if source_hash = target_hash then
            { s with duplicates_found := s.duplicates_found + 1 }
          else s
        if source_hash = target_hash ∧ cfg.duplicate_handling = "skip" then
          (Except.ok none, s1)
        else if cfg.duplicate_handling = "overwrite" then
          (Except.ok (some target_path), s1)
        else if cfg.duplicate_handling = "skip" then
          (Except.ok none, s1)
        else if cfg.duplicate_handling = "rename" then
          let filename := (splitext target_path).1
          let extension := (splitext target_path).2
          (Except.ok (renameFrom fs cfg.rename_pattern (dirname target_path)
            (basename filename) extension 1 1000), s1)
        else
          (Except.ok none, s1)

/-- The body of the `try` block of `FileOrganizer.process_file` (source
lines 253-298), with the in-place stats mutations threaded so that the
partial updates survive a raised exception, exactly as in Python. -/
def processFileBody (fs : FS) (cfg : Cfg) (file_path : Path) (s : Stats) :
    Except Err Bool × Stats :=
  match fs.getsize file_path with
  | Except.error e => (Except.error e, s)
  | Except.ok size_bytes =>
    let size_kb : ℚ := (size_bytes : ℚ) / 1024
    let size_mb : ℚ := size_kb / 1024
    if 0 < cfg.min_file_size_kb ∧ size_kb < cfg.min_file_size_kb then
      (Except.ok false, { s with files_skipped := s.files_skipped + 1 })
    else if 0 < cfg.max_file_size_mb ∧ cfg.max_file_size_mb < size_mb then
      (Except.ok false, { s with files_skipped := s.files_skipped + 1 })
    else
      let s1 := { s with files_processed := s.files_processed + 1 }
      match get_destination_path fs cfg file_path with
      | Except.error e => (Except.error e, s1)
      | Except.ok none =>
        (Except.ok false, { s1 with files_skipped := s1.files_skipped + 1 })
      | Except.ok (some dest_dir) =>
        match fs.makedirs dest_dir with
        | Except.error e => (Except.error e, s1)
        | Except.ok _ =>
          let target_path := pjoin dest_dir (basename file_path)
          match handle_duplicate fs cfg file_path target_path s1 with
          | (Except.error e, s2) => (Except.error e, s2)
          | (Except.ok none, s2) =>
            (Except.ok false, { s2 with files_skipped := s2.files_skipped + 1 })
          | (Except.ok (some final_path), s2) =>
            match fs.move file_path final_path with
            | Except.error e => (Except.error e, s2)
            | Except.ok _ =>
              (Except.ok true, { s2 with files_moved := s2.files_moved + 1 })

/-- `FileOrganizer.process_file` (source lines 251-308): the body runs
under `try`, and any exception is caught, logged, counted in `errors`,
and turned into the `False` return value. -/
def process_file (fs : FS) (cfg : Cfg) (file_path : Path) (s : Stats) :
    Bool × Stats :=
  match processFileBody fs cfg file_path s with
  | (Except.ok b, s1) => (b, s1)
  | (Except.error _, s1) => (false, { s1 with errors := s1.errors + 1 })

/-- The file-discovery part of `FileOrganizer.organize` (source lines
353-361): for each directory visited by `os.walk` (the pruning of
`exclude_dirs` happens inside the walk and is part of the oracle input),
drop the file names listed in `exclude_files` and join the rest to the
directory path. -/
def discover (cfg : Cfg) (walk : List (Path × List String)) : List Path :=
  walk.flatMap (fun rf =>
    (rf.2.filter (fun f => ¬ cfg.exclude_files.contains f)).map
      (fun f => pjoin rf.1 f))

/-- The sequential processing loop of `FileOrganizer.organize` (source
lines 348-417, `max_threads ≤ 1` path; the final statistics are the same
fold over the per-file steps). -/
def organize (fs : FS) (cfg : Cfg) (walk : List (Path × List String))
    (s : Stats) : Stats :=
  (discover cfg walk).foldl (fun st p => (process_file fs cfg p st).2) s

/-- The size filter of `process_file` (source lines 255-271): `true` when
`os.path.getsize` succeeded and neither bound applies (so control reaches
the `files_processed` increment of line 273). -/
def passesSizeFilter (fs : FS) (cfg : Cfg) (p : Path) : Bool :=
  match fs.getsize p with
  | Except.error _ => false
  | Except.ok n =>
    ¬ (0 < cfg.min_file_size_kb ∧ (n : ℚ) / 1024 < cfg.min_file_size_kb) ∧
    ¬ (0 < cfg.max_file_size_mb ∧
        cfg.max_file_size_mb < (n : ℚ) / 1024 / 1024)

/-- The candidate path that the rename loop probes at a given counter
value (one rename slot). -/
def renameCandidate (cfg : Cfg) (target_path : Path) (k : Nat) :
    Path :=
  pjoin (dirname target_path)
    (pyFormat cfg.rename_pattern (basename (splitext target_path).1)
      ("_" ++ toString k) (splitext target_path).2)

/-- Test fixture: the default-like configuration used by the concrete
instances below (extension mode, policy `rename`, default pattern,
`max_file_size_mb = 500`, `min_file_size_kb = 1`). -/
def cfgRename : Cfg where
  target_directory := "t"
  rules := [("documents", [".pdf", ".doc"]), ("images", [".jpg", ".png"])]
  exclude_files := [".DS_Store", "Thumbs.db"]
  organize_by := "extension"
  create_date_folders := false
  duplicate_handling := "rename"
  max_file_size_mb := 500
  min_file_size_kb := 1
  rename_pattern := "{name}{counter}{ext}"

/-- Test fixture: policy `skip`. -/
def cfgSkip : Cfg := { cfgRename with duplicate_handling := "skip" }

/-- Test fixture: policy `overwrite`. -/
def cfgOverwrite : Cfg := { cfgRename with duplicate_handling := "overwrite" }

/-- Test fixture: `max_file_size_mb = 1`. -/
def cfgMax1 : Cfg := { cfgRename with max_file_size_mb := 1 }

/-- Test fixture: size mode. -/
def cfgSize : Cfg := { cfgRename with organize_by := "size" }

/-- Test fixture: an `organize_by` value that is none of the three
recognized modes. -/
def cfgWeird : Cfg := { cfgRename with organize_by := "by_magic" }

/-- Test fixture: a filesystem where only `t/doc.pdf` exists, every file
is 5000 bytes, fingerprints are the path itself (so distinct paths have
different content), and directory creation and moves succeed. -/
def fsDocA : FS where
  getsize := fun _ => Except.ok 5000
  mtimeParts := fun _ => Except.ok (2024, 1, 2)
  pexists := fun p => p = "t/doc.pdf"
  fileHash := fun p => Except.ok p
  makedirs := fun _ => Except.ok ()
  move := fun _ _ => Except.ok ()

/-- Test fixture: as `fsDocA` but `t/doc_1.pdf` also exists. -/
def fsDocB : FS :=
  { fsDocA with pexists := fun p => p = "t/doc.pdf" ∨ p = "t/doc_1.pdf" }

/-- Test fixture: no path exists, all operations succeed. -/
def fsEmpty : FS := { fsDocA with pexists := fun _ => false }

/-- Test fixture: every path exists (the rename space is exhausted). -/
def fsAll : FS := { fsDocA with pexists := fun _ => true }

/-- Test fixture: a 2 MB file (2097152 bytes), no path exists. -/
def fsBig : FS := { fsEmpty with getsize := fun _ => Except.ok 2097152 }

/-- Test fixture: `os.path.getsize` raises. -/
def fsRaise : FS := { fsEmpty with getsize := fun _ => Except.error "OSError" }

/-- Test fixture: `shutil.move` raises; nothing exists beforehand. -/
def fsMoveRaise : FS := { fsEmpty with move := fun _ _ => Except.error "PermissionError" }

/-- Test fixture: only the already-organized `t/documents/doc.pdf`
exists. -/
def fsDocC : FS := { fsDocA with pexists := fun p => p = "t/documents/doc.pdf" }

/-- Test fixture: a 500-byte file (below the 1 KB minimum), nothing
exists. -/
def fsTiny : FS := { fsEmpty with getsize := fun _ => Except.ok 500 }

/-- Test fixture: per-path sizes at the exact MiB bucket boundaries. -/
def fsSizes : FS :=
  { fsEmpty with getsize := fun p =>
      if p = "a/one" then Except.ok 1048576
      else if p = "a/ten" then Except.ok 10485760
      else if p = "a/hundred" then Except.ok 104857600
      else Except.ok 5000 }

/-- A JSON value as produced by `json.load`; objects are association
lists because Python dicts preserve insertion order. -/
inductive JVal where
  | s (v : String)
  | n (v : Int)
  | b (v : Bool)
  | o (fields : List (String × JVal))
  | a (items : List JVal)

/-- Python dict lookup on an association list (first binding wins; a dict
produced by `json.load` has unique keys). -/
def dictGet (d : List (String × JVal)) (k : String) : Option JVal :=
  (d.find? (fun kv => kv.1 = k)).map (fun kv => kv.2)

/-- Python `dict.update`: existing keys keep their position and receive
the user's value; keys new in `user` are appended in order. -/
def dictUpdate (base user : List (String × JVal)) :
    List (String × JVal) :=
  base.map (fun kv =>
    match dictGet user kv.1 with
    | some v => (kv.1, v)
    | none => kv) ++
  user.filter (fun kv => (dictGet base kv.1).isNone)

/-- The default configuration dictionary of `Config.__init__` (source
lines 35-73), transcribed field by field. -/
def defaultConfig : List (String × JVal) := [
  ("source_directory", JVal.s "~/Downloads"),
  ("target_directory", JVal.s "~/Organized"),
  ("rules", JVal.o [
    ("documents", JVal.a [JVal.s ".pdf", JVal.s ".doc", JVal.s ".docx",
      JVal.s ".txt", JVal.s ".rtf", JVal.s ".odt"]),
    ("images", JVal.a [JVal.s ".jpg", JVal.s ".jpeg", JVal.s ".png",
      JVal.s ".gif", JVal.s ".bmp", JVal.s ".tiff", JVal.s ".webp"]),
    ("videos", JVal.a [JVal.s ".mp4", JVal.s ".mov", JVal.s ".avi",
      JVal.s ".mkv", JVal.s ".wmv", JVal.s ".flv"]),
    ("audio", JVal.a [JVal.s ".mp3", JVal.s ".wav", JVal.s ".ogg",
      JVal.s ".flac", JVal.s ".aac", JVal.s ".m4a"]),
    ("archives", JVal.a [JVal.s ".zip", JVal.s ".rar", JVal.s ".7z",
      JVal.s ".tar", JVal.s ".gz", JVal.s ".bz2"]),
    ("code", JVal.a [JVal.s ".py", JVal.s ".js", JVal.s ".html",
      JVal.s ".css", JVal.s ".java", JVal.s ".cpp", JVal.s ".c",
      JVal.s ".php", JVal.s ".rb", JVal.s ".go"])]),
  ("exclude_files", JVal.a [JVal.s ".DS_Store", JVal.s "Thumbs.db"]),
  ("exclude_dirs", JVal.a [JVal.s ".git", JVal.s "node_modules",
    JVal.s "__pycache__"]),
  ("organize_by", JVal.s "extension"),
  ("create_date_folders", JVal.b false),
  ("duplicate_handling", JVal.s "rename"),
  ("max_file_size_mb", JVal.n 500),
  ("min_file_size_kb", JVal.n 1),
  ("notification_email", JVal.s ""),
  ("api_keys", JVal.o []),
  ("performance", JVal.o [
    ("max_threads", JVal.n 4),
    ("batch_size", JVal.n 100),
    ("memory_limit_mb", JVal.n 1024)]),
  ("notifications", JVal.o [
    ("email_enabled", JVal.b false),
    ("email_on_error", JVal.b true),
    ("email_summary", JVal.b false),
    ("desktop_notifications", JVal.b true),
    ("summary_interval_hours", JVal.n 24)]),
  ("advanced", JVal.o [
    ("min_file_age_minutes", JVal.n 0),
    ("compress_images", JVal.b false),
    ("extract_archives", JVal.b false),
    ("rename_pattern", JVal.s "{name}{counter}{ext}")])]

/-- `Config.__init__` (source lines 33-82): no file → defaults; a file
that fails to open or to parse (the `except` branch) → defaults; a parsed
JSON object → `self.config.update(user_config)` over the defaults. -/
def configLoad : Option (Except Err (List (String × JVal))) →
    List (String × JVal)
  | none => defaultConfig
  | some (Except.error _) => defaultConfig
  | some (Except.ok user) => dictUpdate defaultConfig user

/-- `Config.get(key, default)` (source lines 84-86). -/
def configGet (cfg : List (String × JVal)) (k : String) (dflt : JVal) :
    JVal :=
  (dictGet cfg k).getD dflt

/-- Python's dict method `.get` invoked on a configuration value (an
`AttributeError` if the value is not a dict). -/
def jvalGet (v : JVal) (k : String) (dflt : JVal) : Except Err JVal :=
  match v with
  | JVal.o fields => Except.ok ((dictGet fields k).getD dflt)
  | _ => Except.error "AttributeError"

/-- `config.get("performance", {}).get("max_threads", 4)` (source line
122). -/
def cfgMaxThreads (cfg : List (String × JVal)) : Except Err JVal :=
  jvalGet (configGet cfg "performance" (JVal.o [])) "max_threads" (JVal.n 4)

/-- `config.get("performance", {}).get("batch_size", 100)` (source line
368). -/
def cfgBatchSize (cfg : List (String × JVal)) : Except Err JVal :=
  jvalGet (configGet cfg "performance" (JVal.o [])) "batch_size"
    (JVal.n 100)

/-- `config.get("advanced", {}).get("rename_pattern",
"{name}{counter}{ext}")` (source line 222). -/
def cfgRenamePattern (cfg : List (String × JVal)) : Except Err JVal :=
  jvalGet (configGet cfg "advanced" (JVal.o [])) "rename_pattern"
    (JVal.s "{name}{counter}{ext}")

section Theorems

lemma renameFrom_eq_candidate (fs : FS) (cfg : Cfg) (tgt : Path)
    (counter fuel : Nat) :
    renameFrom fs cfg.rename_pattern (dirname tgt)
        (basename (splitext tgt).1) (splitext tgt).2 counter fuel =
      match fuel with
      | 0 => none
      | fuel + 1 =>
        if fs.pexists (renameCandidate cfg tgt counter) then
          renameFrom fs cfg.rename_pattern (dirname tgt)
            (basename (splitext tgt).1) (splitext tgt).2 (counter + 1) fuel
        else some (renameCandidate cfg tgt counter) := by
  cases fuel with
  | zero => rfl
  | succ fuel => rfl

lemma renameFrom_exhaust (fs : FS) (cfg : Cfg) (tgt : Path)
    (counter fuel : Nat)
    (h : ∀ j, j < fuel → fs.pexists (renameCandidate cfg tgt (counter + j)) = true) :
    renameFrom fs cfg.rename_pattern (dirname tgt)
      (basename (splitext tgt).1) (splitext tgt).2 counter fuel = none := by
  induction fuel generalizing counter with
  | zero => rfl
  | succ fuel ih =>
    rw [renameFrom_eq_candidate]
    have h0 := h 0 (Nat.succ_pos fuel)
    simp only [Nat.add_zero] at h0
    rw [h0]
    simp only [if_true]
    exact ih (counter + 1) fun j hj => by
      have hx := h (j + 1) (Nat.succ_lt_succ hj)
      have harith : counter + (j + 1) = counter + 1 + j := by omega
      rwa [harith] at hx

lemma renameFrom_first (fs : FS) (cfg : Cfg) (tgt : Path)
    (counter fuel j : Nat) (hj : j < fuel)
    (hfree : fs.pexists (renameCandidate cfg tgt (counter + j)) = false)
    (hbusy : ∀ i, i < j → fs.pexists (renameCandidate cfg tgt (counter + i)) = true) :
    renameFrom fs cfg.rename_pattern (dirname tgt)
        (basename (splitext tgt).1) (splitext tgt).2 counter fuel =
      some (renameCandidate cfg tgt (counter + j)) := by
  induction fuel generalizing counter j with
  | zero => exact absurd hj (Nat.not_lt_zero j)
  | succ fuel ih =>
    rw [renameFrom_eq_candidate]
    cases j with
    | zero =>
      simp only [Nat.add_zero] at hfree ⊢
      rw [hfree]
      simp
    | succ j =>
      have h0 := hbusy 0 (Nat.succ_pos j)
      simp only [Nat.add_zero] at h0
      rw [h0]
      simp only [if_true]
      have harith : counter + (j + 1) = counter + 1 + j := by omega
      have hres := ih (counter + 1) j (Nat.lt_of_succ_lt_succ hj)
        (by rwa [harith] at hfree)
        (fun i hi => by
          have hx := hbusy (i + 1) (Nat.succ_lt_succ hi)
          have harith2 : counter + (i + 1) = counter + 1 + i := by omega
          rwa [harith2] at hx)
      rwa [← harith] at hres

/-- `handle_duplicate` touches no counter other than `duplicates_found`. -/
lemma handle_duplicate_stats (fs : FS) (cfg : Cfg) (src tgt : Path)
    (s : Stats) :
    (handle_duplicate fs cfg src tgt s).2 = s ∨
      (handle_duplicate fs cfg src tgt s).2 =
        { s with duplicates_found := s.duplicates_found + 1 } := by
  unfold handle_duplicate
  split
  · exact Or.inl rfl
  · cases fs.fileHash src with
    | error e => exact Or.inl rfl
    | ok sh =>
      cases fs.fileHash tgt with
      | error e => exact Or.inl rfl
      | ok th =>
        by_cases heq : sh = th <;> simp only [heq] <;> split_ifs <;> simp

/-- The skip/overwrite/rename decision of `handle_duplicate` does not
depend on the stats object that is threaded through it. -/
lemma handle_duplicate_fst_congr (fs : FS) (cfg : Cfg) (src tgt : Path)
    (s s' : Stats) :
    (handle_duplicate fs cfg src tgt s).1 =
      (handle_duplicate fs cfg src tgt s').1 := by
  unfold handle_duplicate
  split
  · rfl
  · cases fs.fileHash src with
    | error e => rfl
    | ok sh =>
      cases fs.fileHash tgt with
      | error e => rfl
      | ok th =>
        by_cases heq : sh = th <;> simp only [heq] <;> split_ifs <;> simp

/-- C1: for every file whose base name is not in `exclude_files`,
classification in mode `extension` looks up the lower-cased extension
(with its leading dot) in the rule table; the first category whose
extension list contains it wins, an extension matched by no category
yields `"others"`, and the destination is `targetDirectory/category`. -/
theorem C1_extension_classification :
    (∀ (cfg : Cfg) (ext cat : String)
        (pre post : List (String × List String)) (exts : List String),
      cfg.rules = pre ++ (cat, exts) :: post →
      exts.contains ext = true →
      (∀ p ∈ pre, p.2.contains ext = false) →
      get_file_category cfg ext = cat) ∧
    (∀ (cfg : Cfg) (ext : String),
      (∀ p ∈ cfg.rules, p.2.contains ext = false) →
      get_file_category cfg ext = "others") ∧
    (∀ (fs : FS) (cfg : Cfg) (p : Path),
      cfg.organize_by = "extension" →
      cfg.exclude_files.contains (basename p) = false →
      get_destination_path fs cfg p =
        Except.ok (some (pjoin (expanduser cfg.target_directory)
          (get_file_category cfg (pylower (splitext p).2))))) := by
  refine ⟨?_, ?_, ?_⟩
  · intro cfg ext cat pre post exts hrules hmem hpre
    unfold get_file_category
    rw [hrules, List.find?_append]
    have hnone : pre.find? (fun ce => ce.2.contains ext) = none := by
      rw [List.find?_eq_none]
      intro x hx
      simpa using hpre x hx
    rw [hnone, Option.none_or]
    have hfind : List.find? (fun ce => ce.2.contains ext) ((cat, exts) :: post) =
        some (cat, exts) := by
      have hm : ext ∈ exts := by simpa using hmem
      simp [List.find?_cons, hm]
    rw [hfind]
  · intro cfg ext h
    unfold get_file_category
    have hnone : cfg.rules.find? (fun ce => ce.2.contains ext) = none := by
      rw [List.find?_eq_none]
      intro x hx
      simpa using h x hx
    rw [hnone]
  · intro fs cfg p hmode hexcl
    unfold get_destination_path
    rw [hexcl, hmode]
    simp

/-- C3: if the target path does not exist the resolver returns it
unchanged; otherwise policy `overwrite` returns the target path (whatever
the two fingerprints are) and policy `skip` returns `None`. -/
theorem C3_duplicate_basic_policies :
    (∀ (fs : FS) (cfg : Cfg) (src tgt : Path) (s : Stats),
      fs.pexists tgt = false →
      handle_duplicate fs cfg src tgt s = (Except.ok (some tgt), s)) ∧
    (∀ (fs : FS) (cfg : Cfg) (src tgt : Path) (s : Stats) (hs ht : String),
      cfg.duplicate_handling = "overwrite" →
      fs.pexists tgt = true →
      fs.fileHash src = Except.ok hs →
      fs.fileHash tgt = Except.ok ht →
      (handle_duplicate fs cfg src tgt s).1 = Except.ok (some tgt)) ∧
    (∀ (fs : FS) (cfg : Cfg) (src tgt : Path) (s : Stats) (hs ht : String),
      cfg.duplicate_handling = "skip" →
      fs.pexists tgt = true →
      fs.fileHash src = Except.ok hs →
      fs.fileHash tgt = Except.ok ht →
      (handle_duplicate fs cfg src tgt s).1 = Except.ok none) := by
  refine ⟨?_, ?_, ?_⟩
  · intro fs cfg src tgt s h
    unfold handle_duplicate
    simp [h]
  · intro fs cfg src tgt s hs ht hdh hex hhs hht
    unfold handle_duplicate
    rw [hex, hhs, hht]
    by_cases heq : hs = ht <;> simp [heq, hdh]
  · intro fs cfg src tgt s hs ht hdh hex hhs hht
    unfold handle_duplicate
    rw [hex, hhs, hht]
    by_cases heq : hs = ht <;> simp [heq, hdh]

/-- C2: under policy `rename`, for an existing target the resolver probes
pattern-generated candidates (`{name}`, `{counter}` as `_N`, `{ext}`)
sequentially from counter 1 and returns the first free one; 1000 failed
attempts yield `None`; concretely a collision at `doc.pdf` gives
`doc_1.pdf` and a further collision gives `doc_2.pdf`. -/
theorem C2_rename_probing :
    (∀ (fs : FS) (cfg : Cfg) (src tgt : Path) (s : Stats) (hs ht : String)
        (j : Nat),
      cfg.duplicate_handling = "rename" →
      fs.pexists tgt = true →
      fs.fileHash src = Except.ok hs →
      fs.fileHash tgt = Except.ok ht →
      j < 1000 →
      (∀ i, i < j → fs.pexists (renameCandidate cfg tgt (1 + i)) = true) →
      fs.pexists (renameCandidate cfg tgt (1 + j)) = false →
      (handle_duplicate fs cfg src tgt s).1 =
        Except.ok (some (renameCandidate cfg tgt (1 + j)))) ∧
    (∀ (fs : FS) (cfg : Cfg) (src tgt : Path) (s : Stats) (hs ht : String),
      cfg.duplicate_handling = "rename" →
      fs.pexists tgt = true →
      fs.fileHash src = Except.ok hs →
      fs.fileHash tgt = Except.ok ht →
      (∀ k, 1 ≤ k → k ≤ 1000 → fs.pexists (renameCandidate cfg tgt k) = true) →
      (handle_duplicate fs cfg src tgt s).1 = Except.ok none) ∧
    handle_duplicate fsDocA cfgRename "s/doc.pdf" "t/doc.pdf" {} =
      (Except.ok (some "t/doc_1.pdf"), {}) ∧
    handle_duplicate fsDocB cfgRename "s/doc.pdf" "t/doc.pdf" {} =
      (Except.ok (some "t/doc_2.pdf"), {}) := by
  refine ⟨?_, ?_, by rfl, by rfl⟩
  · intro fs cfg src tgt s hs ht j hdh hex hhs hht hj hbusy hfree
    unfold handle_duplicate
    rw [hex, hhs, hht]
    have hfirst := renameFrom_first fs cfg tgt 1 1000 j hj hfree hbusy
    by_cases heq : hs = ht <;> simp [heq, hdh, hfirst]
  · intro fs cfg src tgt s hs ht hdh hex hhs hht hall
    unfold handle_duplicate
    rw [hex, hhs, hht]
    have hnone := renameFrom_exhaust fs cfg tgt 1 1000
      (fun j hj => hall (1 + j) (by omega) (by omega))
    by_cases heq : hs = ht <;> simp [heq, hdh, hnone]

lemma handle_duplicate_counters (fs : FS) (cfg : Cfg) (src tgt : Path)
    (s : Stats) :
    (handle_duplicate fs cfg src tgt s).2.files_processed = s.files_processed ∧
    (handle_duplicate fs cfg src tgt s).2.files_moved = s.files_moved ∧
    (handle_duplicate fs cfg src tgt s).2.files_skipped = s.files_skipped ∧
    (handle_duplicate fs cfg src tgt s).2.errors = s.errors := by
  rcases handle_duplicate_stats fs cfg src tgt s with h | h <;> rw [h] <;>
    exact ⟨rfl, rfl, rfl, rfl⟩

/-- Complete accounting of one `process_file` body run: `errors` is never
touched inside the `try` block, `files_processed` is incremented exactly
when the size filter passes, and the run ends in exactly one of the three
ways (moved, skipped, raised), with the matching single counter update. -/
lemma processFileBody_spec (fs : FS) (cfg : Cfg) (p : Path) (s : Stats) :
    (processFileBody fs cfg p s).2.errors = s.errors ∧
    (processFileBody fs cfg p s).2.files_processed =
      s.files_processed + (if passesSizeFilter fs cfg p then 1 else 0) ∧
    (((processFileBody fs cfg p s).1 = Except.ok true ∧
        (processFileBody fs cfg p s).2.files_moved = s.files_moved + 1 ∧
        (processFileBody fs cfg p s).2.files_skipped = s.files_skipped) ∨
      ((processFileBody fs cfg p s).1 = Except.ok false ∧
        (processFileBody fs cfg p s).2.files_moved = s.files_moved ∧
        (processFileBody fs cfg p s).2.files_skipped = s.files_skipped + 1) ∨
      (∃ e, (processFileBody fs cfg p s).1 = Except.error e ∧
        (processFileBody fs cfg p s).2.files_moved = s.files_moved ∧
        (processFileBody fs cfg p s).2.files_skipped = s.files_skipped)) := by
  unfold processFileBody
  cases hg : fs.getsize p with
  | error e =>
    refine ⟨rfl, ?_, Or.inr (Or.inr ⟨e, rfl, rfl, rfl⟩)⟩
    simp [passesSizeFilter, hg]
  | ok n =>
    by_cases h1 : 0 < cfg.min_file_size_kb ∧ (n : ℚ) / 1024 < cfg.min_file_size_kb
    · have hps : passesSizeFilter fs cfg p = false := by
        simp only [passesSizeFilter, hg]
        simp [h1]
      refine ⟨?_, ?_, Or.inr (Or.inl ⟨?_, ?_, ?_⟩)⟩ <;> simp [if_pos h1, hps]
    · by_cases h2 : 0 < cfg.max_file_size_mb ∧
          cfg.max_file_size_mb < (n : ℚ) / 1024 / 1024
      · have hps : passesSizeFilter fs cfg p = false := by
          simp only [passesSizeFilter, hg]
          simp [h2]
        refine ⟨?_, ?_, Or.inr (Or.inl ⟨?_, ?_, ?_⟩)⟩ <;>
          simp [if_neg h1, if_pos h2, hps]
      · have hps : passesSizeFilter fs cfg p = true := by
          simp only [passesSizeFilter, hg]
          simp [h1, h2]
        simp only [if_neg h1, if_neg h2, hps, if_true]
        cases hd : get_destination_path fs cfg p with
        | error e =>
          refine ⟨?_, ?_, Or.inr (Or.inr ⟨e, ?_, ?_, ?_⟩)⟩ <;> simp
        | ok od =>
          cases od with
          | none =>
            refine ⟨?_, ?_, Or.inr (Or.inl ⟨?_, ?_, ?_⟩)⟩ <;> simp
          | some dest_dir =>
            cases hm : fs.makedirs dest_dir with
            | error e =>
              refine ⟨?_, ?_, Or.inr (Or.inr ⟨e, ?_, ?_, ?_⟩)⟩ <;> simp [hm]
            | ok u =>
              cases u
              simp only [hm]
              have hc := handle_duplicate_counters fs cfg p
                (pjoin dest_dir (basename p))
                { s with files_processed := s.files_processed + 1 }
              rcases hdup : handle_duplicate fs cfg p (pjoin dest_dir (basename p))
                { s with files_processed := s.files_processed + 1 } with ⟨r, s2⟩
              rw [hdup] at hc
              dsimp at hc
              cases r with
              | error e =>
                refine ⟨?_, ?_, Or.inr (Or.inr ⟨e, ?_, ?_, ?_⟩)⟩ <;>
                  simp [hc.1, hc.2.1, hc.2.2.1, hc.2.2.2]
              | ok op =>
                cases op with
                | none =>
                  refine ⟨?_, ?_, Or.inr (Or.inl ⟨?_, ?_, ?_⟩)⟩ <;>
                    simp [hc.1, hc.2.1, hc.2.2.1, hc.2.2.2]
                | some final_path =>
                  cases hmv : fs.move p final_path with
                  | error e =>
                    refine ⟨?_, ?_, Or.inr (Or.inr ⟨e, ?_, ?_, ?_⟩)⟩ <;>
                      simp [hmv, hc.1, hc.2.1, hc.2.2.1, hc.2.2.2]
                  | ok u2 =>
                    cases u2
                    refine ⟨?_, ?_, Or.inl ⟨?_, ?_, ?_⟩⟩ <;>
                      simp [hmv, hc.1, hc.2.1, hc.2.2.1, hc.2.2.2]

/-- Policy `skip` always resolves an existing target to `None`
(whether or not the fingerprints agree). -/
lemma handle_duplicate_skip_none (fs : FS) (cfg : Cfg) (src tgt : Path)
    (s : Stats) (hs ht : String)
    (hdh : cfg.duplicate_handling = "skip")
    (hex : fs.pexists tgt = true)
    (hhs : fs.fileHash src = Except.ok hs)
    (hht : fs.fileHash tgt = Except.ok ht) :
    (handle_duplicate fs cfg src tgt s).1 = Except.ok none := by
  unfold handle_duplicate
  rw [hex, hhs, hht]
  by_cases heq : hs = ht <;> simp [heq, hdh]

/-- Policy `rename` always resolves an existing target to the result of
the 1000-attempt probing loop. -/
lemma handle_duplicate_rename_loop (fs : FS) (cfg : Cfg) (src tgt : Path)
    (s : Stats) (hs ht : String)
    (hdh : cfg.duplicate_handling = "rename")
    (hex : fs.pexists tgt = true)
    (hhs : fs.fileHash src = Except.ok hs)
    (hht : fs.fileHash tgt = Except.ok ht) :
    (handle_duplicate fs cfg src tgt s).1 =
      Except.ok (renameFrom fs cfg.rename_pattern (dirname tgt)
        (basename (splitext tgt).1) (splitext tgt).2 1 1000) := by
  unfold handle_duplicate
  rw [hex, hhs, hht]
  by_cases heq : hs = ht <;> simp [heq, hdh]

/-- Counter accounting of `process_file` itself: the catch-all branch
turns a raised exception into a single `errors` increment, everything
else follows `processFileBody_spec`. -/
lemma process_file_counters (fs : FS) (cfg : Cfg) (p : Path) (s : Stats) :
    (process_file fs cfg p s).2.errors =
      s.errors + (if (processFileBody fs cfg p s).1.isOk = true then 0 else 1) ∧
    (process_file fs cfg p s).2.files_processed =
      s.files_processed + (if passesSizeFilter fs cfg p = true then 1 else 0) ∧
    (((process_file fs cfg p s).2.files_moved = s.files_moved + 1 ∧
        (process_file fs cfg p s).2.files_skipped = s.files_skipped ∧
        (process_file fs cfg p s).2.errors = s.errors) ∨
      ((process_file fs cfg p s).2.files_moved = s.files_moved ∧
        (process_file fs cfg p s).2.files_skipped = s.files_skipped + 1 ∧
        (process_file fs cfg p s).2.errors = s.errors) ∨
      ((process_file fs cfg p s).2.files_moved = s.files_moved ∧
        (process_file fs cfg p s).2.files_skipped = s.files_skipped ∧
        (process_file fs cfg p s).2.errors = s.errors + 1)) := by
  have hspec := processFileBody_spec fs cfg p s
  unfold process_file
  rcases hb : processFileBody fs cfg p s with ⟨rb, sb⟩
  rw [hb] at hspec
  dsimp at hspec ⊢
  cases rb with
  | error e =>
    refine ⟨by simp [hspec.1, Except.isOk, Except.toBool], by simp [hspec.2.1], ?_⟩
    rcases hspec.2.2 with ⟨h, _⟩ | ⟨h, _⟩ | ⟨e2, _, hmv, hsk⟩
    · exact absurd h (by simp)
    · exact absurd h (by simp)
    · exact Or.inr (Or.inr ⟨by simp [hmv], by simp [hsk], by simp [hspec.1]⟩)
  | ok b =>
    refine ⟨by simp [hspec.1, Except.isOk, Except.toBool], by simp [hspec.2.1], ?_⟩
    rcases hspec.2.2 with ⟨h, hmv, hsk⟩ | ⟨h, hmv, hsk⟩ | ⟨e2, h, _⟩
    · exact Or.inl ⟨by simp [hmv], by simp [hsk], by simp [hspec.1]⟩
    · exact Or.inr (Or.inl ⟨by simp [hmv], by simp [hsk], by simp [hspec.1]⟩)
    · exact absurd h (by simp)

/-- When the size filter passes and the classifier yields no destination,
`process_file` counts the file once as processed and once as skipped. -/
lemma process_file_skip_of_dest_none (fs : FS) (cfg : Cfg) (p : Path)
    (s : Stats) (n : Nat)
    (hg : fs.getsize p = Except.ok n)
    (h1 : ¬ (0 < cfg.min_file_size_kb ∧ (n : ℚ) / 1024 < cfg.min_file_size_kb))
    (h2 : ¬ (0 < cfg.max_file_size_mb ∧
        cfg.max_file_size_mb < (n : ℚ) / 1024 / 1024))
    (hdst : get_destination_path fs cfg p = Except.ok none) :
    process_file fs cfg p s =
      (false, { s with files_processed := s.files_processed + 1,
                       files_skipped := s.files_skipped + 1 }) := by
  unfold process_file processFileBody
  rw [hg]
  simp only [if_neg h1, if_neg h2, hdst]

/-- When the size filter passes, a destination is resolved and created,
and the duplicate resolver answers `None`, `process_file` counts the file
as skipped, never as an error or a move. -/
lemma process_file_skip_of_dup_none (fs : FS) (cfg : Cfg) (p : Path)
    (s : Stats) (n : Nat) (dest : Path)
    (hg : fs.getsize p = Except.ok n)
    (h1 : ¬ (0 < cfg.min_file_size_kb ∧ (n : ℚ) / 1024 < cfg.min_file_size_kb))
    (h2 : ¬ (0 < cfg.max_file_size_mb ∧
        cfg.max_file_size_mb < (n : ℚ) / 1024 / 1024))
    (hdst : get_destination_path fs cfg p = Except.ok (some dest))
    (hmk : fs.makedirs dest = Except.ok ())
    (hdup : ∀ s' : Stats,
      (handle_duplicate fs cfg p (pjoin dest (basename p)) s').1 =
        Except.ok none) :
    (process_file fs cfg p s).2.files_skipped = s.files_skipped + 1 ∧
    (process_file fs cfg p s).2.errors = s.errors ∧
    (process_file fs cfg p s).2.files_moved = s.files_moved := by
  unfold process_file processFileBody
  rw [hg]
  simp only [if_neg h1, if_neg h2, hdst, hmk]
  have hc := handle_duplicate_counters fs cfg p (pjoin dest (basename p))
    { s with files_processed := s.files_processed + 1 }
  have hd1 := hdup { s with files_processed := s.files_processed + 1 }
  rcases hd2 : handle_duplicate fs cfg p (pjoin dest (basename p))
    { s with files_processed := s.files_processed + 1 } with ⟨r, s2⟩
  rw [hd2] at hc hd1
  dsimp at hc hd1
  subst hd1
  simp [hc.2.1, hc.2.2.1, hc.2.2.2]

/-- Rational-to-natural translation of the MiB bucket comparisons of the
size mode: dividing by `1024*1024` and comparing against a bound `c` is
comparing the byte count against `c` MiB. -/
lemma sizeq_lt (n bound : Nat) (c : ℚ) (hc : c * (1024 * 1024) = (bound : ℚ)) :
    ((n : ℚ) / (1024 * 1024) < c) ↔ n < bound := by
  rw [div_lt_iff₀ (by norm_num : (0:ℚ) < 1024 * 1024), hc, Nat.cast_lt]

/-- C4: an exception raised inside a single file's processing is caught
there (the result is the partial stats with `errors` incremented by
exactly one and the `False` return), and the run goes on: `organize`
over a concatenated walk equals processing the second part after the
first, so a per-file failure never aborts the batch and the run always
ends in a plain `Stats` summary. -/
theorem C4_per_file_exception_recovery :
    (∀ (fs : FS) (cfg : Cfg) (p : Path) (s : Stats) (e : Err),
      (processFileBody fs cfg p s).1 = Except.error e →
      process_file fs cfg p s =
        (false, { (processFileBody fs cfg p s).2 with
          errors := (processFileBody fs cfg p s).2.errors + 1 })) ∧
    (∀ (fs : FS) (cfg : Cfg) (p : Path) (s : Stats) (e : Err),
      (processFileBody fs cfg p s).1 = Except.error e →
      (process_file fs cfg p s).2.errors = s.errors + 1) ∧
    (∀ (fs : FS) (cfg : Cfg) (w1 w2 : List (Path × List String)) (s : Stats),
      organize fs cfg (w1 ++ w2) s =
        organize fs cfg w2 (organize fs cfg w1 s)) := by
  refine ⟨?_, ?_, ?_⟩
  · intro fs cfg p s e h
    unfold process_file
    rcases hb : processFileBody fs cfg p s with ⟨rb, sb⟩
    rw [hb] at h
    dsimp at h
    subst h
    rfl
  · intro fs cfg p s e h
    have hc := (process_file_counters fs cfg p s).1
    rw [h] at hc
    simpa [Except.isOk, Except.toBool] using hc
  · intro fs cfg w1 w2 s
    unfold organize
    have hd : discover cfg (w1 ++ w2) = discover cfg w1 ++ discover cfg w2 := by
      simp [discover]
    rw [hd, List.foldl_append]

unseal Rat.mul Rat.inv in
/-- C5: every skip condition — excluded name, size out of bounds,
classifier with no destination, duplicate policy `skip`, rename-space
exhaustion after 1000 attempts — increments `files_skipped` exactly once
and leaves `errors` (and `files_moved`) unchanged; concretely, with
`max_file_size_mb = 1` a 2 MB file is counted as skipped and never as
moved. -/
theorem C5_skip_conditions :
    (∀ (fs : FS) (cfg : Cfg) (p : Path) (s : Stats) (n : Nat),
      fs.getsize p = Except.ok n →
      ¬ (0 < cfg.min_file_size_kb ∧ (n : ℚ) / 1024 < cfg.min_file_size_kb) →
      ¬ (0 < cfg.max_file_size_mb ∧
          cfg.max_file_size_mb < (n : ℚ) / 1024 / 1024) →
      cfg.exclude_files.contains (basename p) = true →
      (process_file fs cfg p s).2.files_skipped = s.files_skipped + 1 ∧
      (process_file fs cfg p s).2.errors = s.errors ∧
      (process_file fs cfg p s).2.files_moved = s.files_moved) ∧
    (∀ (fs : FS) (cfg : Cfg) (p : Path) (s : Stats) (n : Nat),
      fs.getsize p = Except.ok n →
      (0 < cfg.min_file_size_kb ∧ (n : ℚ) / 1024 < cfg.min_file_size_kb) →
      (process_file fs cfg p s).2.files_skipped = s.files_skipped + 1 ∧
      (process_file fs cfg p s).2.errors = s.errors ∧
      (process_file fs cfg p s).2.files_moved = s.files_moved) ∧
    (∀ (fs : FS) (cfg : Cfg) (p : Path) (s : Stats) (n : Nat),
      fs.getsize p = Except.ok n →
      ¬ (0 < cfg.min_file_size_kb ∧ (n : ℚ) / 1024 < cfg.min_file_size_kb) →
      (0 < cfg.max_file_size_mb ∧
          cfg.max_file_size_mb < (n : ℚ) / 1024 / 1024) →
      (process_file fs cfg p s).2.files_skipped = s.files_skipped + 1 ∧
      (process_file fs cfg p s).2.errors = s.errors ∧
      (process_file fs cfg p s).2.files_moved = s.files_moved) ∧
    (∀ (fs : FS) (cfg : Cfg) (p : Path) (s : Stats) (n : Nat),
      fs.getsize p = Except.ok n →
      ¬ (0 < cfg.min_file_size_kb ∧ (n : ℚ) / 1024 < cfg.min_file_size_kb) →
      ¬ (0 < cfg.max_file_size_mb ∧
          cfg.max_file_size_mb < (n : ℚ) / 1024 / 1024) →
      get_destination_path fs cfg p = Except.ok none →
      (process_file fs cfg p s).2.files_skipped = s.files_skipped + 1 ∧
      (process_file fs cfg p s).2.errors = s.errors ∧
      (process_file fs cfg p s).2.files_moved = s.files_moved) ∧
    (∀ (fs : FS) (cfg : Cfg) (p : Path) (s : Stats) (n : Nat) (dest : Path)
        (hs ht : String),
      fs.getsize p = Except.ok n →
      ¬ (0 < cfg.min_file_size_kb ∧ (n : ℚ) / 1024 < cfg.min_file_size_kb) →
      ¬ (0 < cfg.max_file_size_mb ∧
          cfg.max_file_size_mb < (n : ℚ) / 1024 / 1024) →
      get_destination_path fs cfg p = Except.ok (some dest) →
      fs.makedirs dest = Except.ok () →
      cfg.duplicate_handling = "skip" →
      fs.pexists (pjoin dest (basename p)) = true →
      fs.fileHash p = Except.ok hs →
      fs.fileHash (pjoin dest (basename p)) = Except.ok ht →
      (process_file fs cfg p s).2.files_skipped = s.files_skipped + 1 ∧
      (process_file fs cfg p s).2.errors = s.errors ∧
      (process_file fs cfg p s).2.files_moved = s.files_moved) ∧
    (∀ (fs : FS) (cfg : Cfg) (p : Path) (s : Stats) (n : Nat) (dest : Path)
        (hs ht : String),
      fs.getsize p = Except.ok n →
      ¬ (0 < cfg.min_file_size_kb ∧ (n : ℚ) / 1024 < cfg.min_file_size_kb) →
      ¬ (0 < cfg.max_file_size_mb ∧
          cfg.max_file_size_mb < (n : ℚ) / 1024 / 1024) →
      get_destination_path fs cfg p = Except.ok (some dest) →
      fs.makedirs dest = Except.ok () →
      cfg.duplicate_handling = "rename" →
      fs.pexists (pjoin dest (basename p)) = true →
      fs.fileHash p = Except.ok hs →
      fs.fileHash (pjoin dest (basename p)) = Except.ok ht →
      (∀ k, 1 ≤ k → k ≤ 1000 →
        fs.pexists (renameCandidate cfg (pjoin dest (basename p)) k) = true) →
      (process_file fs cfg p s).2.files_skipped = s.files_skipped + 1 ∧
      (process_file fs cfg p s).2.errors = s.errors ∧
      (process_file fs cfg p s).2.files_moved = s.files_moved) ∧
    process_file fsBig cfgMax1 "a/big.bin" {} =
      (false, { files_skipped := 1 }) := by
  refine ⟨?_, ?_, ?_, ?_, ?_, ?_, by rfl⟩
  · intro fs cfg p s n hg h1 h2 hx
    have hdst : get_destination_path fs cfg p = Except.ok none := by
      unfold get_destination_path
      rw [hx]
      rfl
    rw [process_file_skip_of_dest_none fs cfg p s n hg h1 h2 hdst]
    exact ⟨rfl, rfl, rfl⟩
  · intro fs cfg p s n hg h1
    unfold process_file processFileBody
    rw [hg]
    simp only [if_pos h1]
    simp
  · intro fs cfg p s n hg h1 h2
    unfold process_file processFileBody
    rw [hg]
    simp only [if_neg h1, if_pos h2]
    simp
  · intro fs cfg p s n hg h1 h2 hdst
    rw [process_file_skip_of_dest_none fs cfg p s n hg h1 h2 hdst]
    exact ⟨rfl, rfl, rfl⟩
  · intro fs cfg p s n dest hs ht hg h1 h2 hdst hmk hdh hex hhs hht
    exact process_file_skip_of_dup_none fs cfg p s n dest hg h1 h2 hdst hmk
      (fun s2 => handle_duplicate_skip_none fs cfg p (pjoin dest (basename p))
        s2 hs ht hdh hex hhs hht)
  · intro fs cfg p s n dest hs ht hg h1 h2 hdst hmk hdh hex hhs hht hall
    refine process_file_skip_of_dup_none fs cfg p s n dest hg h1 h2 hdst hmk
      (fun s2 => ?_)
    rw [handle_duplicate_rename_loop fs cfg p (pjoin dest (basename p))
      s2 hs ht hdh hex hhs hht]
    rw [renameFrom_exhaust fs cfg (pjoin dest (basename p)) 1 1000
      (fun j hj => hall (1 + j) (by omega) (by omega))]

unseal Rat.mul Rat.inv in
/-- C6 counterexample: a 2 MB file under `max_file_size_mb = 1` is handed
to `process_file` (it enters per-file processing and receives its single
outcome, `files_skipped`), yet `files_processed` is NOT incremented —
refuting "the processed counter is incremented when the file enters
processing". -/
theorem C6_counterexample_processed_not_incremented :
    (process_file fsBig cfgMax1 "a/big.bin" {}).2.files_skipped = 1 ∧
    (process_file fsBig cfgMax1 "a/big.bin" {}).2.files_processed = 0 := by
  exact ⟨by rfl, by rfl⟩

unseal Rat.mul Rat.inv in
/-- C6 (amended): every call to `process_file` increments exactly one of
`files_moved`/`files_skipped`/`errors`; `files_processed` is incremented
exactly when the file passes the size filter (so a size-filtered file, or
one whose size check raises, is not counted as processed); and size
filtering happens before classification, counting the file as skipped. -/
theorem C6_amended_counter_discipline :
    (∀ (fs : FS) (cfg : Cfg) (p : Path) (s : Stats),
      ((process_file fs cfg p s).2.files_moved = s.files_moved + 1 ∧
        (process_file fs cfg p s).2.files_skipped = s.files_skipped ∧
        (process_file fs cfg p s).2.errors = s.errors) ∨
      ((process_file fs cfg p s).2.files_moved = s.files_moved ∧
        (process_file fs cfg p s).2.files_skipped = s.files_skipped + 1 ∧
        (process_file fs cfg p s).2.errors = s.errors) ∨
      ((process_file fs cfg p s).2.files_moved = s.files_moved ∧
        (process_file fs cfg p s).2.files_skipped = s.files_skipped ∧
        (process_file fs cfg p s).2.errors = s.errors + 1)) ∧
    (∀ (fs : FS) (cfg : Cfg) (p : Path) (s : Stats),
      (process_file fs cfg p s).2.files_processed =
        s.files_processed +
          (if passesSizeFilter fs cfg p = true then 1 else 0)) ∧
    (∀ (fs : FS) (cfg : Cfg) (p : Path) (s : Stats) (n : Nat),
      fs.getsize p = Except.ok n →
      ((0 < cfg.min_file_size_kb ∧ (n : ℚ) / 1024 < cfg.min_file_size_kb) ∨
        (¬ (0 < cfg.min_file_size_kb ∧
            (n : ℚ) / 1024 < cfg.min_file_size_kb) ∧
          (0 < cfg.max_file_size_mb ∧
            cfg.max_file_size_mb < (n : ℚ) / 1024 / 1024))) →
      process_file fs cfg p s =
        (false, { s with files_skipped := s.files_skipped + 1 })) := by
  refine ⟨?_, ?_, ?_⟩
  · intro fs cfg p s
    exact (process_file_counters fs cfg p s).2.2
  · intro fs cfg p s
    exact (process_file_counters fs cfg p s).2.1
  · intro fs cfg p s n hg hcase
    unfold process_file processFileBody
    rw [hg]
    rcases hcase with h1 | ⟨h1, h2⟩
    · simp only [if_pos h1]
    · simp only [if_neg h1, if_pos h2]

/-- C7: in mode `size` the classifier buckets the byte count by MiB —
`< 1` small, `< 10` medium, `< 100` large, otherwise `very_large` — and
returns `targetDirectory/bucket`; the boundaries are inclusive of the
bucket above (exactly 1 MiB is medium, 10 MiB large, 100 MiB
very_large). -/
theorem C7_size_buckets :
    ∀ (fs : FS) (cfg : Cfg) (p : Path) (n : Nat),
      cfg.organize_by = "size" →
      cfg.exclude_files.contains (basename p) = false →
      fs.getsize p = Except.ok n →
      ((n < 1048576 →
        get_destination_path fs cfg p =
          Except.ok (some (pjoin (expanduser cfg.target_directory) "small"))) ∧
       (1048576 ≤ n → n < 10485760 →
        get_destination_path fs cfg p =
          Except.ok (some (pjoin (expanduser cfg.target_directory) "medium"))) ∧
       (10485760 ≤ n → n < 104857600 →
        get_destination_path fs cfg p =
          Except.ok (some (pjoin (expanduser cfg.target_directory) "large"))) ∧
       (104857600 ≤ n →
        get_destination_path fs cfg p =
          Except.ok (some (pjoin (expanduser cfg.target_directory)
            "very_large")))) := by
  intro fs cfg p n hmode hexcl hg
  have hsmall := sizeq_lt n 1048576 1 (by norm_num)
  have hmed := sizeq_lt n 10485760 10 (by norm_num)
  have hlarge := sizeq_lt n 104857600 100 (by norm_num)
  have hbase : ∀ cat : String,
      (if (n : ℚ) / (1024 * 1024) < 1 then "small"
        else if (n : ℚ) / (1024 * 1024) < 10 then "medium"
        else if (n : ℚ) / (1024 * 1024) < 100 then "large"
        else "very_large") = cat →
      get_destination_path fs cfg p =
        Except.ok (some (pjoin (expanduser cfg.target_directory) cat)) := by
    intro cat hcat
    unfold get_destination_path
    rw [hexcl, hmode]
    have h1 : ¬ ("size" : String) = "extension" := by decide
    have h2 : ¬ ("size" : String) = "date" := by decide
    simp only [if_neg h1, if_neg h2, if_pos rfl, Bool.false_eq_true,
      if_false, hg, ← hcat]
    simp
  refine ⟨?_, ?_, ?_, ?_⟩
  · intro hn
    exact hbase "small" (by rw [if_pos (hsmall.mpr hn)])
  · intro hn1 hn2
    exact hbase "medium" (by
      rw [if_neg (by rw [hsmall]; omega), if_pos (hmed.mpr hn2)])
  · intro hn1 hn2
    exact hbase "large" (by
      rw [if_neg (by rw [hsmall]; omega), if_neg (by rw [hmed]; omega),
        if_pos (hlarge.mpr hn2)])
  · intro hn
    exact hbase "very_large" (by
      rw [if_neg (by rw [hsmall]; omega), if_neg (by rw [hmed]; omega),
        if_neg (by rw [hlarge]; omega)])

/-- C10: for an `organize_by` value that is none of `extension`, `date`
or `size`, the classifier returns no destination for every non-excluded
file, and per-file processing then counts the file as skipped, never as
an error. -/
theorem C10_unknown_mode_skips :
    (∀ (fs : FS) (cfg : Cfg) (p : Path),
      cfg.organize_by ≠ "extension" →
      cfg.organize_by ≠ "date" →
      cfg.organize_by ≠ "size" →
      cfg.exclude_files.contains (basename p) = false →
      get_destination_path fs cfg p = Except.ok none) ∧
    (∀ (fs : FS) (cfg : Cfg) (p : Path) (s : Stats) (n : Nat),
      cfg.organize_by ≠ "extension" →
      cfg.organize_by ≠ "date" →
      cfg.organize_by ≠ "size" →
      cfg.exclude_files.contains (basename p) = false →
      fs.getsize p = Except.ok n →
      ¬ (0 < cfg.min_file_size_kb ∧ (n : ℚ) / 1024 < cfg.min_file_size_kb) →
      ¬ (0 < cfg.max_file_size_mb ∧
          cfg.max_file_size_mb < (n : ℚ) / 1024 / 1024) →
      process_file fs cfg p s =
        (false, { s with files_processed := s.files_processed + 1,
                         files_skipped := s.files_skipped + 1 })) := by
  have hdest : ∀ (fs : FS) (cfg : Cfg) (p : Path),
      cfg.organize_by ≠ "extension" →
      cfg.organize_by ≠ "date" →
      cfg.organize_by ≠ "size" →
      cfg.exclude_files.contains (basename p) = false →
      get_destination_path fs cfg p = Except.ok none := by
    intro fs cfg p hm1 hm2 hm3 hexcl
    unfold get_destination_path
    rw [hexcl]
    simp only [if_neg hm1, if_neg hm2, if_neg hm3, Bool.false_eq_true,
      if_false]
  refine ⟨hdest, ?_⟩
  intro fs cfg p s n hm1 hm2 hm3 hexcl hg h1 h2
  exact process_file_skip_of_dest_none fs cfg p s n hg h1 h2
    (hdest fs cfg p hm1 hm2 hm3 hexcl)

/-- Witness for C1: `.pdf` classifies to `documents` (first matching
category), `.zzz` to `others`, and an uppercase `Doc.PDF` goes to the
lower-cased extension's category directory. -/
theorem C1_extension_classification_witness :
    get_file_category cfgRename ".pdf" = "documents" ∧
    get_file_category cfgRename ".zzz" = "others" ∧
    get_destination_path fsEmpty cfgRename "s/Doc.PDF" =
      Except.ok (some (pjoin (expanduser cfgRename.target_directory)
        (get_file_category cfgRename (pylower (splitext "s/Doc.PDF").2)))) :=
  ⟨C1_extension_classification.1 cfgRename ".pdf" "documents" []
      [("images", [".jpg", ".png"])] [".pdf", ".doc"] rfl (by decide)
      (by decide),
    C1_extension_classification.2.1 cfgRename ".zzz" (by decide),
    C1_extension_classification.2.2 fsEmpty cfgRename "s/Doc.PDF" rfl
      (by decide)⟩

/-- Witness for C2: with only `t/doc.pdf` existing the resolver picks the
first candidate (counter 1), and with every path existing it gives up
with `None`. -/
theorem C2_rename_probing_witness :
    (handle_duplicate fsDocA cfgRename "s/doc.pdf" "t/doc.pdf" {}).1 =
      Except.ok (some (renameCandidate cfgRename "t/doc.pdf" (1 + 0))) ∧
    (handle_duplicate fsAll cfgRename "s/doc.pdf" "t/doc.pdf" {}).1 =
      Except.ok none :=
  ⟨C2_rename_probing.1 fsDocA cfgRename "s/doc.pdf" "t/doc.pdf" {}
      "s/doc.pdf" "t/doc.pdf" 0 rfl (by decide) rfl rfl (by decide)
      (fun i hi => absurd hi (Nat.not_lt_zero i)) (by decide),
    C2_rename_probing.2.1 fsAll cfgRename "s/doc.pdf" "t/doc.pdf" {}
      "s/doc.pdf" "t/doc.pdf" rfl rfl rfl rfl (fun k h1 h2 => rfl)⟩

/-- Witness for C3: a fresh target is returned unchanged; an existing
different-content target is overwritten under `overwrite` and skipped
under `skip`. -/
theorem C3_duplicate_basic_policies_witness :
    handle_duplicate fsEmpty cfgRename "s/a.pdf" "t/a.pdf" {} =
      (Except.ok (some "t/a.pdf"), {}) ∧
    (handle_duplicate fsDocA cfgOverwrite "s/doc.pdf" "t/doc.pdf" {}).1 =
      Except.ok (some "t/doc.pdf") ∧
    (handle_duplicate fsDocA cfgSkip "s/doc.pdf" "t/doc.pdf" {}).1 =
      Except.ok none :=
  ⟨C3_duplicate_basic_policies.1 fsEmpty cfgRename "s/a.pdf" "t/a.pdf" {}
      rfl,
    C3_duplicate_basic_policies.2.1 fsDocA cfgOverwrite "s/doc.pdf"
      "t/doc.pdf" {} "s/doc.pdf" "t/doc.pdf" rfl (by decide) rfl rfl,
    C3_duplicate_basic_policies.2.2 fsDocA cfgSkip "s/doc.pdf" "t/doc.pdf"
      {} "s/doc.pdf" "t/doc.pdf" rfl (by decide) rfl rfl⟩

/-- Witness for C4: a raised `getsize` is caught and counted as one
error. -/
theorem C4_per_file_exception_recovery_witness :
    process_file fsRaise cfgRename "s/a.pdf" {} =
      (false, { (processFileBody fsRaise cfgRename "s/a.pdf" {}).2 with
        errors :=
          (processFileBody fsRaise cfgRename "s/a.pdf" {}).2.errors + 1 }) ∧
    (process_file fsRaise cfgRename "s/a.pdf" {}).2.errors = 1 :=
  ⟨C4_per_file_exception_recovery.1 fsRaise cfgRename "s/a.pdf" {}
      "OSError" rfl,
    C4_per_file_exception_recovery.2.1 fsRaise cfgRename "s/a.pdf" {}
      "OSError" rfl⟩

unseal Rat.mul Rat.inv in
/-- Witness for C5: each of the six skip conditions instantiated at a
concrete filesystem and configuration. -/
theorem C5_skip_conditions_witness :
    ((process_file fsEmpty cfgRename "s/.DS_Store" {}).2.files_skipped = 1 ∧
      (process_file fsEmpty cfgRename "s/.DS_Store" {}).2.errors = 0 ∧
      (process_file fsEmpty cfgRename "s/.DS_Store" {}).2.files_moved = 0) ∧
    ((process_file fsTiny cfgRename "s/a.pdf" {}).2.files_skipped = 1 ∧
      (process_file fsTiny cfgRename "s/a.pdf" {}).2.errors = 0 ∧
      (process_file fsTiny cfgRename "s/a.pdf" {}).2.files_moved = 0) ∧
    ((process_file fsBig cfgMax1 "a/big.bin" {}).2.files_skipped = 1 ∧
      (process_file fsBig cfgMax1 "a/big.bin" {}).2.errors = 0 ∧
      (process_file fsBig cfgMax1 "a/big.bin" {}).2.files_moved = 0) ∧
    ((process_file fsEmpty cfgWeird "s/a.pdf" {}).2.files_skipped = 1 ∧
      (process_file fsEmpty cfgWeird "s/a.pdf" {}).2.errors = 0 ∧
      (process_file fsEmpty cfgWeird "s/a.pdf" {}).2.files_moved = 0) ∧
    ((process_file fsDocC cfgSkip "s/doc.pdf" {}).2.files_skipped = 1 ∧
      (process_file fsDocC cfgSkip "s/doc.pdf" {}).2.errors = 0 ∧
      (process_file fsDocC cfgSkip "s/doc.pdf" {}).2.files_moved = 0) ∧
    ((process_file fsAll cfgRename "s/doc.pdf" {}).2.files_skipped = 1 ∧
      (process_file fsAll cfgRename "s/doc.pdf" {}).2.errors = 0 ∧
      (process_file fsAll cfgRename "s/doc.pdf" {}).2.files_moved = 0) :=
  ⟨C5_skip_conditions.1 fsEmpty cfgRename "s/.DS_Store" {} 5000 rfl
      (by decide) (by decide) (by decide),
    C5_skip_conditions.2.1 fsTiny cfgRename "s/a.pdf" {} 500 rfl
      (by decide),
    C5_skip_conditions.2.2.1 fsBig cfgMax1 "a/big.bin" {} 2097152 rfl
      (by decide) (by decide),
    C5_skip_conditions.2.2.2.1 fsEmpty cfgWeird "s/a.pdf" {} 5000 rfl
      (by decide) (by decide) rfl,
    C5_skip_conditions.2.2.2.2.1 fsDocC cfgSkip "s/doc.pdf" {} 5000
      "t/documents" "s/doc.pdf" "t/documents/doc.pdf" rfl (by decide)
      (by decide) rfl rfl rfl (by decide) rfl rfl,
    C5_skip_conditions.2.2.2.2.2.1 fsAll cfgRename "s/doc.pdf" {} 5000
      "t/documents" "s/doc.pdf" "t/documents/doc.pdf" rfl (by decide)
      (by decide) rfl rfl rfl rfl rfl rfl (fun k h1 h2 => rfl)⟩

unseal Rat.mul Rat.inv in
/-- Witness for the amended C6: the size-filtered 2 MB file receives
exactly the single `files_skipped` increment. -/
theorem C6_amended_counter_discipline_witness :
    process_file fsBig cfgMax1 "b/huge.bin" {} =
      (false, { files_skipped := 1 }) :=
  C6_amended_counter_discipline.2.2 fsBig cfgMax1 "b/huge.bin" {} 2097152
    rfl (Or.inr ⟨by decide, by decide⟩)

/-- Witness for C7: the three exact boundary sizes land in the bucket
above, and a small file lands in `small`. -/
theorem C7_size_buckets_witness :
    get_destination_path fsSizes cfgSize "a/one" =
      Except.ok (some (pjoin (expanduser cfgSize.target_directory)
        "medium")) ∧
    get_destination_path fsSizes cfgSize "a/ten" =
      Except.ok (some (pjoin (expanduser cfgSize.target_directory)
        "large")) ∧
    get_destination_path fsSizes cfgSize "a/hundred" =
      Except.ok (some (pjoin (expanduser cfgSize.target_directory)
        "very_large")) ∧
    get_destination_path fsSizes cfgSize "a/small.bin" =
      Except.ok (some (pjoin (expanduser cfgSize.target_directory)
        "small")) :=
  ⟨(C7_size_buckets fsSizes cfgSize "a/one" 1048576 rfl (by decide)
      rfl).2.1 (by omega) (by omega),
    (C7_size_buckets fsSizes cfgSize "a/ten" 10485760 rfl (by decide)
      rfl).2.2.1 (by omega) (by omega),
    (C7_size_buckets fsSizes cfgSize "a/hundred" 104857600 rfl (by decide)
      rfl).2.2.2 (by omega),
    (C7_size_buckets fsSizes cfgSize "a/small.bin" 5000 rfl (by decide)
      rfl).1 (by omega)⟩

unseal Rat.mul Rat.inv in
/-- Witness for C10: `organize_by = "by_magic"` yields no destination and
a skipped (not errored) file. -/
theorem C10_unknown_mode_skips_witness :
    get_destination_path fsEmpty cfgWeird "s/b.txt" = Except.ok none ∧
    process_file fsEmpty cfgWeird "s/b.txt" {} =
      (false, { files_processed := 1, files_skipped := 1 }) :=
  ⟨C10_unknown_mode_skips.1 fsEmpty cfgWeird "s/b.txt" (by decide)
      (by decide) (by decide) (by decide),
    C10_unknown_mode_skips.2 fsEmpty cfgWeird "s/b.txt" {} 5000
      (by decide) (by decide) (by decide) (by decide) rfl (by decide)
      (by decide)⟩

lemma find?_filter_of_imp {α : Type} (l : List α) (p q : α → Bool)
    (h : ∀ x, p x = true → q x = true) :
    (l.filter q).find? p = l.find? p := by
  induction l with
  | nil => rfl
  | cons hd tl ih =>
    by_cases hq : q hd = true
    · rw [List.filter_cons_of_pos hq, List.find?_cons, List.find?_cons]
      cases hp : p hd
      · exact ih
      · rfl
    · have hp : p hd = false := by
        cases hp : p hd
        · rfl
        · exact absurd (h hd hp) hq
      rw [List.filter_cons_of_neg hq, List.find?_cons, hp]
      exact ih

/-- Lookup through a Python `dict.update`: the user's binding wins where
present, the base's binding otherwise. -/
lemma dictGet_dictUpdate (base user : List (String × JVal)) (k : String) :
    dictGet (dictUpdate base user) k =
      match dictGet base k with
      | some dv => some ((dictGet user k).getD dv)
      | none => dictGet user k := by
  have hfun : ((fun kv : String × JVal => decide (kv.1 = k)) ∘ (fun kv =>
      match dictGet user kv.1 with
      | some v => (kv.1, v)
      | none => kv)) = (fun kv : String × JVal => decide (kv.1 = k)) := by
    funext kv
    cases hkv : dictGet user kv.1 <;> simp [Function.comp, hkv]
  have hrw : dictGet (dictUpdate base user) k =
      (((base.find? (fun kv => decide (kv.1 = k))).map (fun kv =>
          match dictGet user kv.1 with
          | some v => (kv.1, v)
          | none => kv)).or
        ((user.filter (fun kv => (dictGet base kv.1).isNone)).find?
          (fun kv => decide (kv.1 = k)))).map (fun kv => kv.2) := by
    show ((dictUpdate base user).find? (fun kv => decide (kv.1 = k))).map
        (fun kv => kv.2) = _
    unfold dictUpdate
    rw [List.find?_append, List.find?_map, hfun]
  rw [hrw]
  have hbase : dictGet base k =
      (base.find? (fun kv => decide (kv.1 = k))).map (fun kv => kv.2) := rfl
  have huser : dictGet user k =
      (user.find? (fun kv => decide (kv.1 = k))).map (fun kv => kv.2) := rfl
  rw [hbase]
  cases hb : base.find? (fun kv => decide (kv.1 = k)) with
  | some kv0 =>
    have hk0 : kv0.1 = k := by simpa using List.find?_some hb
    subst hk0
    cases hkv : dictGet user kv0.1 with
    | some v => simp [hkv]
    | none => simp [hkv]
  | none =>
    have hfilter : (user.filter (fun kv => (dictGet base kv.1).isNone)).find?
        (fun kv => decide (kv.1 = k)) =
        user.find? (fun kv => decide (kv.1 = k)) := by
      apply find?_filter_of_imp
      intro kv hkv
      have hk : kv.1 = k := of_decide_eq_true hkv
      rw [hk]
      show (dictGet base k).isNone = true
      rw [hbase, hb]
      rfl
    simp only [hfilter]
    rfl

/-- Appending one binding with a different key does not change a
lookup. -/
lemma dictGet_append_single (u : List (String × JVal)) (key k : String)
    (v : JVal) (hne : k ≠ key) :
    dictGet (u ++ [(key, v)]) k = dictGet u k := by
  unfold dictGet
  rw [List.find?_append]
  have hsingle : ([(key, v)].find? (fun kv => decide (kv.1 = k))) = none := by
    simp only [List.find?_cons, List.find?_nil]
    have hd : decide ((key, v).1 = k) = false := by
      simp only [decide_eq_false_iff_not]
      exact fun h => hne h.symm
    rw [hd]
  rw [hsingle]
  cases u.find? (fun kv => decide (kv.1 = k)) <;> rfl

/-- C8: a missing top-level key falls back to its default; the nested
`performance.max_threads`, `performance.batch_size` and
`advanced.rename_pattern` keys fall back to their documented defaults
when absent (whether the parent object is absent or merely lacks the
key); an extra (unrecognized) key leaves every other lookup unchanged;
and a malformed (unreadable or unparseable) config file loads exactly
the full defaults, never a half-merged configuration. -/
theorem C8_config_defaults :
    (∀ e : Err, configLoad (some (Except.error e)) = defaultConfig) ∧
    (∀ (user : List (String × JVal)) (k : String),
      dictGet user k = none →
      dictGet (configLoad (some (Except.ok user))) k =
        dictGet defaultConfig k) ∧
    (∀ user : List (String × JVal),
      (dictGet user "performance" = none ∨
        ∃ pf, dictGet user "performance" = some (JVal.o pf) ∧
          dictGet pf "max_threads" = none) →
      cfgMaxThreads (configLoad (some (Except.ok user))) =
        Except.ok (JVal.n 4)) ∧
    (∀ user : List (String × JVal),
      (dictGet user "performance" = none ∨
        ∃ pf, dictGet user "performance" = some (JVal.o pf) ∧
          dictGet pf "batch_size" = none) →
      cfgBatchSize (configLoad (some (Except.ok user))) =
        Except.ok (JVal.n 100)) ∧
    (∀ user : List (String × JVal),
      (dictGet user "advanced" = none ∨
        ∃ av, dictGet user "advanced" = some (JVal.o av) ∧
          dictGet av "rename_pattern" = none) →
      cfgRenamePattern (configLoad (some (Except.ok user))) =
        Except.ok (JVal.s "{name}{counter}{ext}")) ∧
    (∀ (user : List (String × JVal)) (k key : String) (v : JVal),
      k ≠ key →
      dictGet (configLoad (some (Except.ok (user ++ [(key, v)])))) k =
        dictGet (configLoad (some (Except.ok user))) k) := by
  have hperf : dictGet defaultConfig "performance" =
      some (JVal.o [("max_threads", JVal.n 4), ("batch_size", JVal.n 100),
        ("memory_limit_mb", JVal.n 1024)]) := by rfl
  have hadv : dictGet defaultConfig "advanced" =
      some (JVal.o [("min_file_age_minutes", JVal.n 0),
        ("compress_images", JVal.b false),
        ("extract_archives", JVal.b false),
        ("rename_pattern", JVal.s "{name}{counter}{ext}")]) := by rfl
  refine ⟨fun e => rfl, ?_, ?_, ?_, ?_, ?_⟩
  · intro user k h
    show dictGet (dictUpdate defaultConfig user) k = dictGet defaultConfig k
    rw [dictGet_dictUpdate, h]
    cases dictGet defaultConfig k <;> rfl
  · intro user h
    show cfgMaxThreads (dictUpdate defaultConfig user) = Except.ok (JVal.n 4)
    unfold cfgMaxThreads configGet
    rw [dictGet_dictUpdate, hperf]
    rcases h with h | ⟨pf, h, hpf⟩
    · rw [h]
      rfl
    · rw [h]
      simp [jvalGet, hpf]
  · intro user h
    show cfgBatchSize (dictUpdate defaultConfig user) = Except.ok (JVal.n 100)
    unfold cfgBatchSize configGet
    rw [dictGet_dictUpdate, hperf]
    rcases h with h | ⟨pf, h, hpf⟩
    · rw [h]
      rfl
    · rw [h]
      simp [jvalGet, hpf]
  · intro user h
    show cfgRenamePattern (dictUpdate defaultConfig user) =
      Except.ok (JVal.s "{name}{counter}{ext}")
    unfold cfgRenamePattern configGet
    rw [dictGet_dictUpdate, hadv]
    rcases h with h | ⟨av, h, hav⟩
    · rw [h]
      rfl
    · rw [h]
      simp [jvalGet, hav]
  · intro user k key v hne
    show dictGet (dictUpdate defaultConfig (user ++ [(key, v)])) k =
      dictGet (dictUpdate defaultConfig user) k
    rw [dictGet_dictUpdate, dictGet_dictUpdate,
      dictGet_append_single user key k v hne]

/-- Witness for C8: a config file carrying only `max_file_size_mb` and a
partial `performance` object keeps every other default; a parse failure
keeps all of them. -/
theorem C8_config_defaults_witness :
    configLoad (some (Except.error "JSONDecodeError")) = defaultConfig ∧
    dictGet (configLoad (some (Except.ok [("max_file_size_mb", JVal.n 100)])))
        "organize_by" = dictGet defaultConfig "organize_by" ∧
    cfgMaxThreads (configLoad (some (Except.ok
        [("performance", JVal.o [("batch_size", JVal.n 5)])]))) =
      Except.ok (JVal.n 4) ∧
    cfgBatchSize (configLoad (some (Except.ok
        [("performance", JVal.o [("max_threads", JVal.n 8)])]))) =
      Except.ok (JVal.n 100) ∧
    cfgRenamePattern (configLoad (some (Except.ok
        [("max_file_size_mb", JVal.n 100)]))) =
      Except.ok (JVal.s "{name}{counter}{ext}") ∧
    dictGet (configLoad (some (Except.ok
        ([("max_file_size_mb", JVal.n 100)] ++ [("legacy_flag", JVal.b true)]))))
        "duplicate_handling" =
      dictGet (configLoad (some (Except.ok [("max_file_size_mb", JVal.n 100)])))
        "duplicate_handling" :=
  ⟨C8_config_defaults.1 "JSONDecodeError",
    C8_config_defaults.2.1 [("max_file_size_mb", JVal.n 100)]
      "organize_by" rfl,
    C8_config_defaults.2.2.1 [("performance", JVal.o [("batch_size", JVal.n 5)])]
      (Or.inr ⟨[("batch_size", JVal.n 5)], rfl, rfl⟩),
    C8_config_defaults.2.2.2.1
      [("performance", JVal.o [("max_threads", JVal.n 8)])]
      (Or.inr ⟨[("max_threads", JVal.n 8)], rfl, rfl⟩),
    C8_config_defaults.2.2.2.2.1 [("max_file_size_mb", JVal.n 100)]
      (Or.inl rfl),
    C8_config_defaults.2.2.2.2.2 [("max_file_size_mb", JVal.n 100)]
      "duplicate_handling" "legacy_flag" (JVal.b true) (by decide)⟩

end Theorems

end FileOrganizer
